import Mathlib

/-!
Verification of the packet decoding and state aggregation engine of the
f1-25-telemetry-for-home-assistant repository
(custom_components/f1_25_telemetry/coordinator.py and const.py).

The engine is shallowly embedded: a datagram is a list of byte values
(`List Nat`), the mutable `self.data` mapping is the `Snapshot` structure,
and each `parse_*` method of `F125Coordinator` becomes a Lean function of
the payload and the prior snapshot.  Python operations that can raise an
exception that the surrounding `try` does not catch (plain `payload[i]`
indexing raises `IndexError`, while the decoders only catch `struct.error`
and `UnicodeDecodeError`) are modelled with `Except`: the `error`
constructor carries the snapshot as mutated up to the point of the raise,
mirroring that Python leaves earlier writes in place when an exception
propagates.  Reads the code performs only behind a length guard, and reads
from slices whose length the guard pins exactly, are modelled with `getD`
(they can never be out of range).  IEEE-754 float fields that the code
stores without doing arithmetic on them (tyre wear, fuel, ERS store,
fastest-lap time, throttle, brake) are kept as their raw little-endian
bit patterns.  Monotonic time is modelled as a rational number.
-/

namespace F125

/-- Little-endian 16-bit read at byte offset `i` of `l`. -/
def u16le (l : List Nat) (i : Nat) : Nat :=
  l.getD i 0 + 256 * l.getD (i + 1) 0

/-- Little-endian 32-bit read at byte offset `i` of `l`. -/
def u32le (l : List Nat) (i : Nat) : Nat :=
  l.getD i 0 + 256 * l.getD (i + 1) 0 + 65536 * l.getD (i + 2) 0 +
    16777216 * l.getD (i + 3) 0

/-- Signed interpretation of one byte (struct format "b", two's complement). -/
def i8 (b : Nat) : Int :=
  if b < 128 then (b : Int) else (b : Int) - 256

/-- Python slice `l[a : a + n]`: never raises, clamps to the list length. -/
def pySlice (l : List Nat) (a n : Nat) : List Nat :=
  (l.drop a).take n

/-- Python indexing `l[i]`: `some` byte when in range, `none` models the
`IndexError` raise. -/
def pyGet (l : List Nat) (i : Nat) : Option Nat :=
  l.get? i

/-- Zero-pad a natural number to at least two decimal digits. -/
def pad2 (n : Nat) : String :=
  if n < 10 then "0" ++ Nat.repr n else Nat.repr n

/-- Zero-pad a natural number to at least three decimal digits. -/
def pad3 (n : Nat) : String :=
  if n < 100 then
    if n < 10 then "00" ++ Nat.repr n else "0" ++ Nat.repr n
  else Nat.repr n

/-- Field group written by `parse_session_packet` (the `self.data["session"]`
dict).  `leaderIndex` models the `leader_index` key that only
`parse_lap_data_packet` ever adds; each fresh session dict lacks it, which
is modelled by `none`. -/
structure SessionGroup where
  weather : Nat := 0
  trackTemperature : Int := 0
  airTemperature : Int := 0
  totalLaps : Nat := 0
  trackLength : Nat := 0
  sessionType : Nat := 0
  trackId : Int := 0
  sessionTimeLeft : Nat := 0
  safetyCarStatus : Nat := 0
  leaderIndex : Option Nat := none
  deriving Repr, DecidableEq

/-- Field group written by `parse_lap_data_packet` (`self.data["lap_data"]`). -/
structure LapGroup where
  lastLapTime : Nat := 0
  currentLapTime : Nat := 0
  lastLapStr : String := ""
  carPosition : Nat := 0
  currentLapNum : Nat := 0
  pitStatus : Nat := 0
  sector : Nat := 0
  currentLapInvalid : Nat := 0
  penalties : Nat := 0
  deriving Repr, DecidableEq

/-- Field group written by `parse_car_telemetry_packet`.  Throttle and brake
are IEEE-754 single-precision values kept as raw 32-bit patterns. -/
structure TelemetryGroup where
  speed : Nat := 0
  throttleBits : Nat := 0
  brakeBits : Nat := 0
  gear : Int := 0
  engineRpm : Nat := 0
  drs : Nat := 0
  tyreSurfaceTemp : List Nat := []
  deriving Repr, DecidableEq

/-- Field group written by `parse_car_status_packet`.  Float fields are raw
32-bit patterns. -/
structure StatusGroup where
  pitLimiterStatus : Nat := 0
  fuelRemainingLapsBits : Nat := 0
  fiaFlags : Int := 0
  tyreVisual : Nat := 0
  tyreAge : Nat := 0
  ersStoreBits : Nat := 0
  ersDeployMode : Nat := 0
  drsAllowed : Nat := 0
  networkPaused : Nat := 0
  deriving Repr, DecidableEq

/-- Field group written by `parse_car_damage_packet`
(`self.data["car_damage"]`).  The initial dict is empty; every lookup the
code performs on it uses a default, so defaults stand in for absent keys.
Tyre wear floats are raw 32-bit patterns. -/
structure CarDamageGroup where
  tyresWearBits : List Nat := []
  frontLeftWing : Nat := 0
  frontRightWing : Nat := 0
  rearWing : Nat := 0
  floor : Nat := 0
  diffuser : Nat := 0
  sidepod : Nat := 0
  terminal : Nat := 0
  hasDamage : Nat := 0
  deriving Repr, DecidableEq

/-- The `self.data["fastest_lap"]` dict.  The lap time float is kept as its
raw 32-bit pattern (initial 0.0 has pattern 0). -/
structure FastestLapGroup where
  carIndex : Nat := 255
  lapTimeBits : Nat := 0
  deriving Repr, DecidableEq

/-- The `self.data["events"]` dict. -/
structure EventsGroup where
  startLights : Nat := 0
  sessionStatus : String := "Unknown"
  deriving Repr, DecidableEq

/-- The whole `self.data` mapping of `F125Coordinator`.  `forecast` holds
(minute-offset, rain-percent) pairs.  `playerCarIndexStored` models the
`"player_car_index"` key: `parse_event_packet` reads it with
`self.data.get("player_car_index")`, but no statement in the repository
ever writes that key, so it stays `none` in every reachable state. -/
structure Snapshot where
  session : SessionGroup := {}
  lapData : Option LapGroup := none
  carTelemetry : Option TelemetryGroup := none
  carStatus : Option StatusGroup := none
  carDamage : CarDamageGroup := {}
  participants : Nat → Option String := fun _ => none
  fastestLap : FastestLapGroup := {}
  events : EventsGroup := {}
  forecast : List (Nat × Nat) := []
  playerCarIndexStored : Option Nat := none

/-- The `self.data` contents established by `F125Coordinator.__init__`. -/
def initialSnapshot : Snapshot := {}

/-- The `PACKET_SIZES` table of const.py. -/
def PACKET_SIZES : Nat → Option Nat
  | 0 => some 1349
  | 1 => some 753
  | 2 => some 1285
  | 3 => some 45
  | 4 => some 1284
  | 5 => some 1133
  | 6 => some 1352
  | 7 => some 1239
  | 8 => some 1042
  | 9 => some 954
  | 10 => some 1041
  | 11 => some 1460
  | 12 => some 231
  | 13 => some 273
  | _ => none

/-- The `PACKET_HEADER_SIZE` constant of const.py. -/
def PACKET_HEADER_SIZE : Nat := 29

/-- The `RELEVANT_PACKETS` list of coordinator.py: Session (1), LapData (2),
CarTelemetry (6), CarStatus (7), CarDamage (10), Event (3),
Participants (4). -/
def RELEVANT_PACKETS : List Nat := [1, 2, 6, 7, 10, 3, 4]

/-- The `_format_lap_time` method.  The Python source computes
`(ms / 1000.0) % 60` and `int((ms / 60000.0) % 60)` in double precision and
renders the seconds with the format `%06.3f`; for every value the decoder
can pass (an unpacked uint32, hence below 2^32) the rounding error of the
two divisions is far below half of the 0.001 output grid and the float
remainder is exact, so the float pipeline agrees with the exact integer
arithmetic used here. -/
def format_lap_time (ms : Nat) : String :=
  if ms = 0 then "0:00.000"
  else
    let secMilli := ms % 60000
    let minutes := (ms / 60000) % 60
    Nat.repr minutes ++ ":" ++ pad2 (secMilli / 1000) ++ "." ++ pad3 (secMilli % 1000)

/-- Weather forecast samples extracted by the loop in
`parse_session_packet`: `num` samples of 8 bytes starting at payload
offset 127, each contributing (minute-offset byte, rain-percent byte);
samples that do not fit inside the payload are skipped. -/
def forecastSamples (payload : List Nat) (num : Nat) : List (Nat × Nat) :=
  (List.range num).filterMap fun i =>
    let off := 127 + i * 8
    if off + 8 ≤ payload.length then
      some (payload.getD (off + 1) 0, payload.getD (off + 7) 0)
    else none

/-- The `parse_session_packet` method.  The leading 19-byte scalar block is
unpacked inside a `try` that catches `struct.error`, so a payload shorter
than 19 bytes leaves the state untouched.  The read `payload[124]` at the
end of the method is not length-guarded and `IndexError` is not caught;
on that raise the session block, the session status and (for these lengths
necessarily untouched) forecast keep the writes already performed, which
the `error` value records. -/
def parse_session_packet (payload : List Nat) (s : Snapshot) : Except Snapshot Snapshot :=
  if payload.length < 19 then .ok s
  else
    let sessionTypeId := payload.getD 6 0
    let timeLeft := u16le payload 9
    let status0 := s.events.sessionStatus
    let status1 :=
      if sessionTypeId ≠ 0 ∧ 0 < timeLeft then
        if status0 = "Unknown" ∨ status0 = "Inactive" then "Active" else status0
      else
        if status0 = "Active" then "Ended" else status0
    let base : SessionGroup :=
      { weather := payload.getD 0 0
        trackTemperature := i8 (payload.getD 1 0)
        airTemperature := i8 (payload.getD 2 0)
        totalLaps := payload.getD 3 0
        trackLength := u16le payload 4
        sessionType := sessionTypeId
        trackId := i8 (payload.getD 7 0)
        sessionTimeLeft := timeLeft
        safetyCarStatus := 0
        leaderIndex := none }
    if 124 < payload.length then
      let sess := { base with safetyCarStatus := payload.getD 124 0 }
      let forecast1 :=
        if 126 < payload.length then forecastSamples payload (payload.getD 126 0)
        else s.forecast
      .ok { s with session := sess
                   events := { s.events with sessionStatus := status1 }
                   forecast := forecast1 }
    else
      .error { s with session := base
                      events := { s.events with sessionStatus := status1 } }

/-- The leader scan of `parse_lap_data_packet`: `for i in range(22)`, take
the first `i` whose record fits the guard `i*57 + 23 < len(payload)` and
whose byte at record offset 22 equals 1.  `fuel` counts the remaining loop
iterations. -/
def leaderScanFrom (payload : List Nat) : Nat → Nat → Option Nat
  | _, 0 => none
  | i, fuel + 1 =>
    if i * 57 + 23 < payload.length ∧ payload.getD (i * 57 + 22) 0 = 1 then some i
    else leaderScanFrom payload (i + 1) fuel

/-- First car index among 0..21 whose lap-data record passes the scan guard
and has byte 22 equal to 1. -/
def findLeader (payload : List Nat) : Option Nat :=
  leaderScanFrom payload 0 22

/-- The `parse_lap_data_packet` method.  The focus record is the 57-byte
slice at `player_index * 57`; the method returns untouched state when the
record does not fit.  The fields stored come from the format string
"<IIHBHBHBHBfffBBBBBBBBBBBBBBBHHBfB": element 22 of the unpacked tuple is
the byte at record offset 41, element 23 offset 42, element 24 offset 43,
element 26 offset 45, element 27 offset 46, and element 28 the 16-bit
field at offset 47.  The leader scan then runs on the whole payload. -/
def parse_lap_data_packet (payload : List Nat) (player_index : Nat) (s : Snapshot) : Snapshot :=
  let offset := player_index * 57
  if payload.length < offset + 57 then s
  else
    let car := pySlice payload offset 57
    let lap : LapGroup :=
      { lastLapTime := u32le car 0
        currentLapTime := u32le car 4
        lastLapStr := format_lap_time (u32le car 0)
        carPosition := car.getD 41 0
        currentLapNum := car.getD 42 0
        pitStatus := car.getD 43 0
        sector := car.getD 45 0
        currentLapInvalid := car.getD 46 0
        penalties := u16le car 47 }
    let session1 :=
      match findLeader payload with
      | some i => { s.session with leaderIndex := some i }
      | none => s.session
    { s with lapData := some lap, session := session1 }

/-- The `parse_car_telemetry_packet` method: 60-byte record at
`player_index * 60`, untouched state when it does not fit. -/
def parse_car_telemetry_packet (payload : List Nat) (player_index : Nat) (s : Snapshot) : Snapshot :=
  let offset := player_index * 60
  if payload.length < offset + 60 then s
  else
    let car := pySlice payload offset 60
    let g : TelemetryGroup :=
      { speed := u16le car 0
        throttleBits := u32le car 2
        brakeBits := u32le car 10
        gear := i8 (car.getD 15 0)
        engineRpm := u16le car 16
        drs := car.getD 18 0
        tyreSurfaceTemp := [car.getD 30 0, car.getD 31 0, car.getD 32 0, car.getD 33 0] }
    { s with carTelemetry := some g }

/-- The `parse_car_status_packet` method: 55-byte record at
`player_index * 55`, untouched state when it does not fit. -/
def parse_car_status_packet (payload : List Nat) (player_index : Nat) (s : Snapshot) : Snapshot :=
  let offset := player_index * 55
  if payload.length < offset + 55 then s
  else
    let car := pySlice payload offset 55
    let g : StatusGroup :=
      { pitLimiterStatus := car.getD 4 0
        fuelRemainingLapsBits := u32le car 13
        fiaFlags := i8 (car.getD 28 0)
        tyreVisual := car.getD 26 0
        tyreAge := car.getD 27 0
        ersStoreBits := u32le car 37
        ersDeployMode := car.getD 41 0
        drsAllowed := car.getD 22 0
        networkPaused := if 54 < car.length then car.getD 54 0 else 0 }
    { s with carStatus := some g }

/-- The `parse_car_damage_packet` method: 46-byte record at
`player_index * 46`, untouched state when it does not fit.  The stored
`terminal` value is read back from the previous car-damage dict with
default 0 ("Preserve if set by event"); `has_damage` is 1 when any tyre
damage byte (record offsets 16..19) or any of the six body-part bytes
(offsets 28..33) is nonzero. -/
def parse_car_damage_packet (payload : List Nat) (player_index : Nat) (s : Snapshot) : Snapshot :=
  let offset := player_index * 46
  if payload.length < offset + 46 then s
  else
    let car := pySlice payload offset 46
    let anyDamage :=
      car.getD 16 0 ≠ 0 ∨ car.getD 17 0 ≠ 0 ∨ car.getD 18 0 ≠ 0 ∨ car.getD 19 0 ≠ 0 ∨
      car.getD 28 0 ≠ 0 ∨ car.getD 29 0 ≠ 0 ∨ car.getD 30 0 ≠ 0 ∨
      car.getD 31 0 ≠ 0 ∨ car.getD 32 0 ≠ 0 ∨ car.getD 33 0 ≠ 0
    { s with carDamage :=
      { tyresWearBits := [u32le car 0, u32le car 4, u32le car 8, u32le car 12]
        frontLeftWing := car.getD 28 0
        frontRightWing := car.getD 29 0
        rearWing := car.getD 30 0
        floor := car.getD 31 0
        diffuser := car.getD 32 0
        sidepod := car.getD 33 0
        terminal := s.carDamage.terminal
        hasDamage := if anyDamage then 1 else 0 } }

/-- The `parse_event_packet` method.  The 4-byte event code is decoded as
ASCII inside a `try` that catches `UnicodeDecodeError` (any byte of the
code at or above 128 aborts the call with no state change).  Direct
payload indexing (`payload[4]`, `payload[5]`) raises `IndexError`, which
the `except` clause does not catch; those raises happen before any write,
so the `error` value carries the unchanged snapshot.  The RTMT branch
compares the event's car index with `self.data.get("player_car_index")`. -/
def parse_event_packet (payload : List Nat) (s : Snapshot) : Except Snapshot Snapshot :=
  let code := payload.take 4
  if code.any (fun b => 128 ≤ b) then .ok s
  else if code = [83, 84, 76, 71] then  -- "STLG"
    match pyGet payload 4 with
    | none => .error s
    | some n => .ok { s with events := { s.events with startLights := n } }
  else if code = [76, 71, 79, 84] then  -- "LGOT"
    .ok { s with events := { s.events with startLights := 0 } }
  else if code = [83, 83, 84, 65] then  -- "SSTA"
    .ok { s with events := { s.events with sessionStatus := "Started" } }
  else if code = [83, 69, 78, 68] then  -- "SEND"
    .ok { s with events := { s.events with sessionStatus := "Ended" } }
  else if code = [67, 72, 81, 70] then  -- "CHQF"
    .ok { s with events := { s.events with sessionStatus := "Chequered Flag" } }
  else if code = [70, 84, 76, 80] then  -- "FTLP"
    match pyGet payload 4 with
    | none => .error s
    | some veh =>
      -- struct.unpack_from("<f", payload, 5) raises struct.error (caught)
      -- when fewer than four bytes follow offset 5
      if payload.length < 9 then .ok s
      else .ok { s with fastestLap := { carIndex := veh, lapTimeBits := u32le payload 5 } }
  else if code = [82, 84, 77, 84] then  -- "RTMT"
    match pyGet payload 4 with
    | none => .error s
    | some veh =>
      match pyGet payload 5 with
      | none => .error s
      | some reason =>
        if s.playerCarIndexStored = some veh ∧ reason = 3 then
          .ok { s with carDamage := { s.carDamage with terminal := 1 } }
        else .ok s
  else .ok s

/-- Strict UTF-8 decoding of a byte list into code points, following the
validation Python's `bytes.decode("utf-8")` performs: continuation bytes
and the overlong leads 0xC0/0xC1 are rejected, 0xE0/0xED get the narrowed
second-byte ranges that exclude overlong forms and surrogates, 0xF0/0xF4
get the ranges that keep code points between 0x10000 and 0x10FFFF, and
leads at or above 0xF5 are rejected. -/
def utf8DecodeCore : List Nat → Option (List Char)
  | [] => some []
  | b :: rest =>
    if b < 128 then
      (utf8DecodeCore rest).map fun cs => Char.ofNat b :: cs
    else if b < 194 then none
    else if b < 224 then
      match rest with
      | b2 :: rest2 =>
        if 128 ≤ b2 ∧ b2 < 192 then
          (utf8DecodeCore rest2).map fun cs => Char.ofNat ((b - 192) * 64 + (b2 - 128)) :: cs
        else none
      | [] => none
    else if b < 240 then
      match rest with
      | b2 :: b3 :: rest3 =>
        if (if b = 224 then 160 ≤ b2 ∧ b2 < 192
            else if b = 237 then 128 ≤ b2 ∧ b2 < 160
            else 128 ≤ b2 ∧ b2 < 192) ∧ 128 ≤ b3 ∧ b3 < 192 then
          (utf8DecodeCore rest3).map fun cs =>
            Char.ofNat ((b - 224) * 4096 + (b2 - 128) * 64 + (b3 - 128)) :: cs
        else none
      | _ => none
    else if b < 245 then
      match rest with
      | b2 :: b3 :: b4 :: rest4 =>
        if (if b = 240 then 144 ≤ b2 ∧ b2 < 192
            else if b = 244 then 128 ≤ b2 ∧ b2 < 144
            else 128 ≤ b2 ∧ b2 < 192) ∧ 128 ≤ b3 ∧ b3 < 192 ∧ 128 ≤ b4 ∧ b4 < 192 then
          (utf8DecodeCore rest4).map fun cs =>
            Char.ofNat ((b - 240) * 262144 + (b2 - 128) * 4096 + (b3 - 128) * 64 + (b4 - 128)) :: cs
        else none
      | _ => none
    else none

/-- Decoded string, or `none` on a `UnicodeDecodeError`. -/
def utf8Decode (l : List Nat) : Option String :=
  (utf8DecodeCore l).map List.asString

/-- Name of participant entry `i`: the 32-byte field at offset 7 of the
57-byte record at payload offset `1 + i * 57`, cut at the first NUL byte
(the `split(b'\x00')[0]` call) and decoded as UTF-8. -/
def participantName (payload : List Nat) (i : Nat) : Option String :=
  utf8Decode ((pySlice payload (1 + i * 57 + 7) 32).takeWhile (fun b => b ≠ 0))

/-- One iteration of the `parse_participants_packet` loop: when entry `i`
fits in the payload and its name decodes, store it under index `i`;
otherwise leave the registry unchanged. -/
def participantsStep (payload : List Nat) (m : Nat → Option String) (i : Nat) :
    Nat → Option String :=
  if 1 + i * 57 + 57 ≤ payload.length then
    match participantName payload i with
    | some name => fun j => if j = i then some name else m j
    | none => m
  else m

/-- The `parse_participants_packet` method.  `payload[0]` raises
`IndexError` on an empty payload, which only the dispatcher's size pin
prevents; the loop itself cannot raise (entry bounds are guarded and a
UTF-8 failure is caught per entry). -/
def parse_participants_packet (payload : List Nat) (s : Snapshot) : Except Snapshot Snapshot :=
  match pyGet payload 0 with
  | none => .error s
  | some numCars =>
    .ok { s with participants := (List.range numCars).foldl (participantsStep payload) s.participants }

/-- Result of one `process_packet` call: the snapshot after the call, whether
`async_set_updated_data` ran, whether the datagram was handed to the
forwarding socket, and the `_last_update` throttle clock after the call. -/
structure ProcResult where
  snap : Snapshot
  notified : Bool
  forwarded : Bool
  lastUpdate : Rat

/-- Size sanity check of `process_packet`: drop when the packet id has a
truthy `PACKET_SIZES` entry different from the datagram length. -/
def sizeMismatch (packet_id len : Nat) : Bool :=
  match PACKET_SIZES packet_id with
  | some sz => sz != 0 && len != sz
  | none => false

/-- Dispatch of `process_packet` by packet id to the matching decoder; any
other id is a no-op.  The per-car ids receive the header's primary player
car index. -/
def dispatchStep (payload : List Nat) (packet_id player_car_index : Nat)
    (s : Snapshot) : Except Snapshot Snapshot :=
  if packet_id = 1 then parse_session_packet payload s
  else if packet_id = 2 then .ok (parse_lap_data_packet payload player_car_index s)
  else if packet_id = 6 then .ok (parse_car_telemetry_packet payload player_car_index s)
  else if packet_id = 7 then .ok (parse_car_status_packet payload player_car_index s)
  else if packet_id = 10 then .ok (parse_car_damage_packet payload player_car_index s)
  else if packet_id = 4 then parse_participants_packet payload s
  else if packet_id = 3 then parse_event_packet payload s
  else .ok s

/-- Notification tail of `process_packet`: every relevant packet id
notifies except that Telemetry (6) and LapData (2) are suppressed while
`now - _last_update < 0.1`, and only such a suppressed-or-fired check
advances the `_last_update` clock. -/
def notifyGate (packet_id : Nat) (s2 : Snapshot) (fwd : Bool)
    (lastUpdate now : Rat) : ProcResult :=
  if packet_id ∈ RELEVANT_PACKETS then
    if packet_id = 6 ∨ packet_id = 2 then
      if now - lastUpdate < (1 : Rat) / 10 then ⟨s2, false, fwd, lastUpdate⟩
      else ⟨s2, true, fwd, now⟩
    else ⟨s2, true, fwd, lastUpdate⟩
  else ⟨s2, false, fwd, lastUpdate⟩

/-- The `process_packet` method.  Header format "<HBBBBBQfIIBB" puts the
packet id at byte 6 and the primary player car index at byte 27; a
datagram shorter than the 29-byte header is dropped, then the size check
runs, then (when configured) the raw datagram is forwarded, then the
decoder for the packet id runs, and finally the notification gate.  An
uncaught decoder exception propagates out of the call after the forward
and with the decoder's partial writes in place, and no notification
runs. -/
def process_packet (forwardEnabled : Bool) (data : List Nat) (s : Snapshot)
    (lastUpdate now : Rat) : Except ProcResult ProcResult :=
  if data.length < PACKET_HEADER_SIZE then .ok ⟨s, false, false, lastUpdate⟩
  else if sizeMismatch (data.getD 6 0) data.length then .ok ⟨s, false, false, lastUpdate⟩
  else
    match dispatchStep (data.drop PACKET_HEADER_SIZE) (data.getD 6 0) (data.getD 27 0) s with
    | .error bad => .error ⟨bad, false, forwardEnabled, lastUpdate⟩
    | .ok s2 => .ok (notifyGate (data.getD 6 0) s2 forwardEnabled lastUpdate now)

/-- Sequential processing of timestamped datagrams, threading the snapshot
and the throttle clock and recording for each datagram whether a
notification fired.  An uncaught exception aborts only that callback
(asyncio logs it): its partial state is kept, no notification fires, and
the next datagram is processed. -/
def runPackets (forwardEnabled : Bool) : List (List Nat × Rat) → Snapshot → Rat → List Bool
  | [], _, _ => []
  | (d, now) :: rest, s, last =>
    match process_packet forwardEnabled d s last now with
    | .ok r => r.notified :: runPackets forwardEnabled rest r.snap r.lastUpdate
    | .error r => false :: runPackets forwardEnabled rest r.snap r.lastUpdate

/-- Lap-time format written from the specification's words, for comparison
with the decoder's `format_lap_time`: 0 maps to "0:00.000", otherwise
minutes are one-or-more digits of floor (ms / 60000) mod 60, seconds are
(ms / 1000) mod 60 zero-padded to two digits, and the fraction is the
three-decimal rendering, whose digits are ms mod 1000. -/
def format_lap_time_spec (ms : Nat) : String :=
  if ms = 0 then "0:00.000"
  else Nat.repr ((ms / 60000) % 60) ++ ":" ++ pad2 ((ms / 1000) % 60) ++ "." ++ pad3 (ms % 1000)

/-- Forwarded flag of a `process_packet` outcome, whether or not the call
raised. -/
def forwardedOf : Except ProcResult ProcResult → Bool
  | .ok r => r.forwarded
  | .error r => r.forwarded

/-- A well-formed 753-byte Session datagram: all zero except the packet id
byte. -/
def sessionDatagram : List Nat := (List.replicate 753 0).set 6 1

/-- A well-formed 1285-byte LapData datagram: all zero except the packet id
byte. -/
def lapDatagram : List Nat := (List.replicate 1285 0).set 6 2

/-- LapData payload exercising the leader scan: 1256 zero bytes except that
record 0 carries 1 in its byte at record offset 41 (the field the decoder
reports as car-position) and record 3 carries 1 in its byte at record
offset 22 (the field the leader scan reads); offset 193 = 3 * 57 + 22. -/
def c2Payload : List Nat := ((List.replicate 1256 0).set 41 1).set 193 1

/-- A well-formed 45-byte Event datagram carrying an RTMT event: packet id
byte 3, event code "RTMT" at bytes 29..32, retired car index 0 at byte 33
(equal to the header's primary player car index at byte 27, which is 0),
and retirement reason 3 (terminal damage) at byte 34. -/
def rtmtDatagram : List Nat :=
  ((((((List.replicate 45 0).set 6 3).set 29 82).set 30 84).set 31 77).set 32 84).set 34 3

/-- Participants payload with a leading count of 2 whose entry 0 has an
invalid UTF-8 name (a lone 0xFF byte) and whose entry 1 is named "AB"
(bytes 65 66 at the name offset 58 + 7 of the second record). -/
def c9Payload : List Nat := ((((List.replicate 115 0).set 0 2).set 8 255).set 65 65).set 66 66

/-- Snapshot holding one pre-existing registry entry, under index 0. -/
def c9Start : Snapshot :=
  { initialSnapshot with participants := fun j => if j = 0 then some "Old" else none }

/-- The registry produced by processing `c9Payload` from `c9Start`. -/
def c9Result : Snapshot :=
  { c9Start with participants := (List.range 2).foldl (participantsStep c9Payload) c9Start.participants }

/-- Snapshot whose car-damage `terminal` flag is set, as the RTMT event
handler would leave it. -/
def c5Start : Snapshot := { initialSnapshot with carDamage := { terminal := 1 } }

/-- A 57-byte LapData payload (one whole record) whose record 0 has 1 in
the byte the leader scan reads. -/
def c10Payload : List Nat := (List.replicate 57 0).set 22 1

/-- Snapshot after processing `sessionDatagram` from the initial state. -/
def c3Snap1 : Snapshot :=
  match parse_session_packet (sessionDatagram.drop 29) initialSnapshot with
  | .ok t => t
  | .error t => t

/-- Snapshot after additionally decoding `lapDatagram` from `c3Snap1`. -/
def c3Snap2 : Snapshot :=
  parse_lap_data_packet (lapDatagram.drop 29) (lapDatagram.getD 27 0) c3Snap1

/-- C6: for every millisecond value the lap-time formatter returns
"0:00.000" at 0 and otherwise the minutes floor (ms / 60000) mod 60, a
colon, the seconds (ms / 1000) mod 60 with two digits, a dot and the
three millisecond digits; in particular 61234 gives "1:01.234", 60000
gives "1:00.000" and 3600000 gives "0:00.000". -/
theorem format_lap_time_correct :
    (∀ ms : Nat, format_lap_time ms = format_lap_time_spec ms) ∧
    format_lap_time 0 = "0:00.000" ∧
    format_lap_time 61234 = "1:01.234" ∧
    format_lap_time 60000 = "1:00.000" ∧
    format_lap_time 3600000 = "0:00.000" := by
  refine ⟨fun ms => ?_, by decide, by decide, by decide, by decide⟩
  unfold format_lap_time format_lap_time_spec
  by_cases h : ms = 0
  · simp [h]
  · simp only [h, if_false]
    have e60 : (60000 : Nat) = 1000 * 60 := by norm_num
    have h1 : ms % 60000 / 1000 = ms / 1000 % 60 := by
      rw [e60, Nat.mod_mul_right_div_self]
    have h2 : ms % 60000 % 1000 = ms % 1000 :=
      Nat.mod_mod_of_dvd ms (by norm_num)
    rw [h1, h2]

/-- C8: each of the four per-car decoders (LapData with 57-byte records,
Telemetry with 60, CarStatus with 55, CarDamage with 46) leaves the whole
snapshot untouched whenever the focus record at focus-index times the
record size does not fit inside the payload, performing no payload read
at or past the payload end. -/
theorem per_car_oob_no_mutation (payload : List Nat) (idx : Nat) (s : Snapshot) :
    (payload.length < idx * 57 + 57 → parse_lap_data_packet payload idx s = s) ∧
    (payload.length < idx * 60 + 60 → parse_car_telemetry_packet payload idx s = s) ∧
    (payload.length < idx * 55 + 55 → parse_car_status_packet payload idx s = s) ∧
    (payload.length < idx * 46 + 46 → parse_car_damage_packet payload idx s = s) := by
  refine ⟨fun h => ?_, fun h => ?_, fun h => ?_, fun h => ?_⟩
  · simp [parse_lap_data_packet, h]
  · simp [parse_car_telemetry_packet, h]
  · simp [parse_car_status_packet, h]
  · simp [parse_car_damage_packet, h]

/-- Witness for C8 at the claim's boundary example: focus index 21 against
a payload sized for only ten 57-byte records (570 bytes) leaves the
snapshot untouched for all four decoders. -/
theorem per_car_oob_no_mutation_witness :
    parse_lap_data_packet (List.replicate 570 0) 21 initialSnapshot = initialSnapshot ∧
    parse_car_telemetry_packet (List.replicate 570 0) 21 initialSnapshot = initialSnapshot ∧
    parse_car_status_packet (List.replicate 570 0) 21 initialSnapshot = initialSnapshot ∧
    parse_car_damage_packet (List.replicate 570 0) 21 initialSnapshot = initialSnapshot :=
  ⟨(per_car_oob_no_mutation _ _ _).1 (by rw [List.length_replicate]; norm_num),
   (per_car_oob_no_mutation _ _ _).2.1 (by rw [List.length_replicate]; norm_num),
   (per_car_oob_no_mutation _ _ _).2.2.1 (by rw [List.length_replicate]; norm_num),
   (per_car_oob_no_mutation _ _ _).2.2.2 (by rw [List.length_replicate]; norm_num)⟩

/-- C10: when the focus record does not fit in a LapData payload the decoder
returns before the leader scan, so the session leader index is left
unchanged. -/
theorem lap_oob_leader_unchanged (payload : List Nat) (idx : Nat) (s : Snapshot)
    (h : payload.length < idx * 57 + 57) :
    (parse_lap_data_packet payload idx s).session.leaderIndex = s.session.leaderIndex := by
  simp [parse_lap_data_packet, h]

/-- Witness for C10: a 57-byte payload whose in-bounds record 0 carries 1 in
the scanned position byte, with focus index 1 whose record does not fit:
the leader index stays unchanged. -/
theorem lap_oob_leader_unchanged_witness :
    c10Payload.getD 22 0 = 1 ∧ c10Payload.length < 1 * 57 + 57 ∧
    (parse_lap_data_packet c10Payload 1 initialSnapshot).session.leaderIndex =
      initialSnapshot.session.leaderIndex :=
  ⟨by decide, by decide, lap_oob_leader_unchanged c10Payload 1 initialSnapshot (by decide)⟩

/-- Helper: the CarDamage decoder carries the stored `terminal` value over
unchanged on every input, whether or not the focus record fits. -/
theorem parse_car_damage_terminal_eq (payload : List Nat) (idx : Nat) (s : Snapshot) :
    (parse_car_damage_packet payload idx s).carDamage.terminal = s.carDamage.terminal := by
  unfold parse_car_damage_packet
  by_cases h : payload.length < idx * 46 + 46
  · rw [if_pos h]
  · rw [if_neg h]

/-- C5: the CarDamage decoder writes back the previously stored `terminal`
value unchanged; on an in-bounds focus record the rest of the produced
car-damage group depends only on the payload (so all other fields are
replaced, independent of their old values); consequently a `terminal`
flag equal to 1 survives any sequence of CarDamage packets. -/
theorem car_damage_preserves_terminal :
    (∀ (payload : List Nat) (idx : Nat) (s : Snapshot),
      (parse_car_damage_packet payload idx s).carDamage.terminal = s.carDamage.terminal) ∧
    (∀ (payload : List Nat) (idx : Nat) (s1 s2 : Snapshot),
      idx * 46 + 46 ≤ payload.length →
      s1.carDamage.terminal = s2.carDamage.terminal →
      (parse_car_damage_packet payload idx s1).carDamage =
        (parse_car_damage_packet payload idx s2).carDamage) ∧
    (∀ (steps : List (List Nat × Nat)) (s : Snapshot),
      s.carDamage.terminal = 1 →
      (steps.foldl (fun st p => parse_car_damage_packet p.1 p.2 st) s).carDamage.terminal = 1) := by
  refine ⟨parse_car_damage_terminal_eq, ?_, ?_⟩
  · intro payload idx s1 s2 hlen hterm
    have h : ¬ payload.length < idx * 46 + 46 := not_lt.mpr hlen
    unfold parse_car_damage_packet
    rw [if_neg h, if_neg h]
    simp [hterm]
  · intro steps
    induction steps with
    | nil => intro s h; exact h
    | cons p rest ih =>
      intro s h
      simp only [List.foldl_cons]
      exact ih _ (by rw [parse_car_damage_terminal_eq]; exact h)

/-- Witness for C5: a zero 46-byte payload with focus index 0 preserves a
set `terminal` flag; two prior snapshots differing outside `terminal`
produce the same car-damage group; and a one-packet sequence keeps
`terminal` at 1. -/
theorem car_damage_preserves_terminal_witness :
    (parse_car_damage_packet (List.replicate 46 0) 0 c5Start).carDamage.terminal =
      c5Start.carDamage.terminal ∧
    (parse_car_damage_packet (List.replicate 46 0) 0 c5Start).carDamage =
      (parse_car_damage_packet (List.replicate 46 0) 0
        { initialSnapshot with carDamage := { terminal := 1, hasDamage := 1 } }).carDamage ∧
    (([((List.replicate 46 0 : List Nat), 0)]).foldl
        (fun st p => parse_car_damage_packet p.1 p.2 st) c5Start).carDamage.terminal = 1 :=
  ⟨car_damage_preserves_terminal.1 (List.replicate 46 0) 0 c5Start,
   car_damage_preserves_terminal.2.1 (List.replicate 46 0) 0 c5Start
     { initialSnapshot with carDamage := { terminal := 1, hasDamage := 1 } }
     (by rw [List.length_replicate]) rfl,
   car_damage_preserves_terminal.2.2 [((List.replicate 46 0 : List Nat), 0)] c5Start rfl⟩

/-- Helper: the leader scan loop returns the first index at or after `i`,
within the remaining `fuel` iterations, whose record passes the bound
guard and carries 1 in its scanned byte. -/
theorem leaderScanFrom_eq_some (payload : List Nat) :
    ∀ (fuel i j : Nat), i ≤ j → j < i + fuel →
      (j * 57 + 23 < payload.length ∧ payload.getD (j * 57 + 22) 0 = 1) →
      (∀ k, i ≤ k → k < j →
        ¬(k * 57 + 23 < payload.length ∧ payload.getD (k * 57 + 22) 0 = 1)) →
      leaderScanFrom payload i fuel = some j := by
  intro fuel
  induction fuel with
  | zero => intro i j hij hlt _ _; omega
  | succ n ih =>
    intro i j hij hlt hj hmin
    unfold leaderScanFrom
    by_cases hc : i * 57 + 23 < payload.length ∧ payload.getD (i * 57 + 22) 0 = 1
    · rw [if_pos hc]
      rcases Nat.eq_or_lt_of_le hij with h | h
      · rw [h]
      · exact absurd hc (hmin i le_rfl h)
    · rw [if_neg hc]
      rcases Nat.eq_or_lt_of_le hij with h | h
      · subst h; exact absurd hj hc
      · exact ih (i + 1) j h (by omega) hj (fun k hk1 hk2 => hmin k (by omega) hk2)

/-- C2 amended: on an in-bounds focus record, the LapData decoder records as
session leader the first car index below 22 whose record passes the scan
bound and whose byte at record offset 22 equals 1 — a different field of
the record than the one the decoder reports as the focus car's
car-position, which is the byte at record offset 41. -/
theorem lap_leader_scan (payload : List Nat) (idx : Nat) (s : Snapshot) (j : Nat)
    (hin : idx * 57 + 57 ≤ payload.length) (hj22 : j < 22)
    (hjb : j * 57 + 23 < payload.length)
    (hpos : payload.getD (j * 57 + 22) 0 = 1)
    (hmin : ∀ k, k < j → payload.getD (k * 57 + 22) 0 ≠ 1) :
    (parse_lap_data_packet payload idx s).session.leaderIndex = some j := by
  have hscan : findLeader payload = some j := by
    apply leaderScanFrom_eq_some payload 22 0 j (Nat.zero_le j) (by omega) ⟨hjb, hpos⟩
    intro k _ hk hc
    exact hmin k hk hc.2
  have hguard : ¬ payload.length < idx * 57 + 57 := not_lt.mpr hin
  simp [parse_lap_data_packet, hguard, hscan]

set_option maxRecDepth 100000 in
/-- C2 counterexample: in `c2Payload` the field the decoder reports as
car-position carries 1 only in record 0 (byte offset 41) and the byte the
leader scan actually reads carries 1 only in record 3 (byte offset 22).
The claim as stated, with the scan reading the same per-record field that
is decoded as car-position, would record leader 0; the decoder records
leader 3, whose own decoded car-position is 0, while record 0 decodes to
car-position 1. -/
theorem lap_leader_scan_counterexample :
    (parse_lap_data_packet c2Payload 3 initialSnapshot).session.leaderIndex = some 3 ∧
    (parse_lap_data_packet c2Payload 3 initialSnapshot).lapData.map
      (fun g => g.carPosition) = some 0 ∧
    (parse_lap_data_packet c2Payload 0 initialSnapshot).lapData.map
      (fun g => g.carPosition) = some 1 ∧
    c2Payload.getD (0 * 57 + 41) 0 = 1 ∧ c2Payload.getD (3 * 57 + 41) 0 = 0 := by
  refine ⟨by decide, by decide, by decide, by decide, by decide⟩

set_option maxRecDepth 100000 in
/-- Witness for the C2 amended theorem at `c2Payload` with focus car 3:
record 3 is the first whose scanned byte equals 1, and the decoder
records leader 3. -/
theorem lap_leader_scan_witness :
    (parse_lap_data_packet c2Payload 3 initialSnapshot).session.leaderIndex = some 3 :=
  lap_leader_scan c2Payload 3 initialSnapshot 3 (by decide) (by decide) (by decide)
    (by decide) (by decide)

/-- C1 evaluated at the failing input: `rtmtDatagram` is exactly the
claim's trigger (RTMT code, car-index byte equal to the header's
primary-player-car-index, reason byte 3), yet processing it leaves the
whole snapshot — in particular the car-damage `terminal` flag —
unchanged, because `parse_event_packet` compares the car index against
`self.data.get("player_car_index")`, a key no statement of the
repository ever writes, so the comparison is always false.  The
hypothesis holds in every reachable state. -/
theorem rtmt_terminal_not_set (s : Snapshot) (last now : Rat)
    (h : s.playerCarIndexStored = none) :
    process_packet false rtmtDatagram s last now = .ok ⟨s, true, false, last⟩ := by
  have hev : parse_event_packet [82, 84, 77, 84, 0, 3, 0, 0, 0, 0, 0, 0, 0, 0, 0, 0] s = .ok s := by
    have e : parse_event_packet [82, 84, 77, 84, 0, 3, 0, 0, 0, 0, 0, 0, 0, 0, 0, 0] s =
        if s.playerCarIndexStored = some 0 ∧ (3 : Nat) = 3 then
          .ok { s with carDamage := { s.carDamage with terminal := 1 } }
        else .ok s := rfl
    rw [e, if_neg]
    simp [h]
  have hlen : rtmtDatagram.length = 45 := by decide
  have hid : rtmtDatagram.getD 6 0 = 3 := by decide
  have hdrop : rtmtDatagram.drop 29 = [82, 84, 77, 84, 0, 3, 0, 0, 0, 0, 0, 0, 0, 0, 0, 0] := by
    decide
  simp only [process_packet, dispatchStep, notifyGate, PACKET_HEADER_SIZE, hlen, hid,
    hdrop, hev, sizeMismatch, PACKET_SIZES, RELEVANT_PACKETS]
  norm_num

/-- Witness for C1 at the initial snapshot: the RTMT trigger datagram is
processed, a notification fires, and the `terminal` flag is still 0
afterwards, where the claim says it must have been set to true. -/
theorem rtmt_terminal_not_set_witness :
    process_packet false rtmtDatagram initialSnapshot 0 0 =
      .ok ⟨initialSnapshot, true, false, 0⟩ ∧
    initialSnapshot.carDamage.terminal = 0 :=
  ⟨rtmt_terminal_not_set initialSnapshot 0 0 rfl, rfl⟩

/-- Helper: pointwise description of one participants-loop iteration:
entry `i` overwrites index `i` exactly when its record fits and its name
decodes, and every other index keeps the prior registry value. -/
theorem participantsStep_apply (payload : List Nat) (m : Nat → Option String) (i j : Nat) :
    participantsStep payload m i j =
      if j = i ∧ 1 + i * 57 + 57 ≤ payload.length ∧ (participantName payload i).isSome
      then participantName payload i else m j := by
  unfold participantsStep
  rcases hname : participantName payload i with _ | name <;>
    by_cases hfit : 1 + i * 57 + 57 ≤ payload.length <;>
    by_cases hj : j = i <;>
    simp [hname, hfit, hj]

/-- Helper: pointwise description of the participants loop.  After folding
the per-entry step over indices 0..n-1, index j holds the decoded name of
entry j when j is below the count, its record fits and its name decodes,
and the prior registry value otherwise. -/
theorem participants_fold_apply (payload : List Nat) :
    ∀ (n : Nat) (m : Nat → Option String) (j : Nat),
      ((List.range n).foldl (participantsStep payload) m) j =
        if j < n ∧ 1 + j * 57 + 57 ≤ payload.length ∧ (participantName payload j).isSome
        then participantName payload j else m j := by
  intro n
  induction n with
  | zero => intro m j; simp
  | succ n ih =>
    intro m j
    rw [List.range_succ, List.foldl_append, List.foldl_cons, List.foldl_nil,
      participantsStep_apply, ih]
    by_cases hj : j = n
    · subst hj
      by_cases hc : 1 + j * 57 + 57 ≤ payload.length ∧ (participantName payload j).isSome
      · rw [if_pos ⟨rfl, hc.1, hc.2⟩, if_pos ⟨by omega, hc.1, hc.2⟩]
      · rw [if_neg (by tauto), if_neg (by simp [lt_irrefl]), if_neg (by tauto)]
    · rw [if_neg (by tauto)]
      have hiff : (j < n + 1) ↔ j < n := by omega
      simp only [hiff]

/-- C9: when the Participants decoder succeeds, no pre-existing registry
entry is removed (index i still holds some name), every in-bounds entry
below the leading count whose 32-byte NUL-cut name decodes as UTF-8 is
stored under its index, and every other index — in particular an entry
whose name fails to decode — keeps its previous registry value. -/
theorem participants_skip_and_preserve (payload : List Nat) (s s2 : Snapshot)
    (h : parse_participants_packet payload s = .ok s2) :
    (∀ i v, s.participants i = some v → ∃ w, s2.participants i = some w) ∧
    (∀ i nm, i < payload.getD 0 0 → 1 + i * 57 + 57 ≤ payload.length →
      participantName payload i = some nm → s2.participants i = some nm) ∧
    (∀ i, ¬(i < payload.getD 0 0 ∧ 1 + i * 57 + 57 ≤ payload.length ∧
        (participantName payload i).isSome) → s2.participants i = s.participants i) := by
  unfold parse_participants_packet at h
  cases hg : pyGet payload 0 with
  | none => rw [hg] at h; exact absurd h (by simp)
  | some numCars =>
    rw [hg] at h
    injection h with h2
    have hp : s2.participants =
        (List.range numCars).foldl (participantsStep payload) s.participants := by
      rw [← h2]
    have hnum : payload.getD 0 0 = numCars := by
      unfold pyGet at hg
      unfold List.getD
      rw [hg]
      rfl
    rw [hnum]
    refine ⟨?_, ?_, ?_⟩
    · intro i v hv
      rw [hp, participants_fold_apply]
      by_cases hc : i < numCars ∧ 1 + i * 57 + 57 ≤ payload.length ∧
          (participantName payload i).isSome
      · rw [if_pos hc]
        exact Option.isSome_iff_exists.mp hc.2.2
      · rw [if_neg hc]
        exact ⟨v, hv⟩
    · intro i nm hcount hfit hname
      rw [hp, participants_fold_apply,
        if_pos ⟨hcount, hfit, by simp [hname]⟩]
      exact hname
    · intro i hc
      rw [hp, participants_fold_apply, if_neg hc]

/-- Witness for C9 at `c9Payload` from `c9Start`: entry 0's name is invalid
UTF-8 and is skipped while the old registry entry under index 0 survives,
and entry 1 is decoded and stored as "AB". -/
theorem participants_skip_and_preserve_witness :
    (∃ w, c9Result.participants 0 = some w) ∧ c9Result.participants 1 = some "AB" := by
  have h := participants_skip_and_preserve c9Payload c9Start c9Result rfl
  exact ⟨h.1 0 "Old" rfl, h.2.1 1 "AB" (by decide) (by decide) (by decide)⟩

/-- Helper: the notification gate always reports the forwarding flag it was
given. -/
theorem notifyGate_forwarded (packet_id : Nat) (s2 : Snapshot) (fwd : Bool) (l n : Rat) :
    (notifyGate packet_id s2 fwd l n).forwarded = fwd := by
  unfold notifyGate
  split_ifs <;> rfl

/-- C7: a datagram shorter than the 29-byte header, or one whose length
differs from the nonzero known size for its packet-type id, is dropped
before any decoder runs — the snapshot is unchanged, nothing is forwarded
and no notification fires — while a packet id with no known-size entry
passes the size check unchecked (the datagram goes on to be forwarded
whenever forwarding is configured). -/
theorem drop_before_decoding (fwd : Bool) (data : List Nat) (s : Snapshot) (last now : Rat) :
    (data.length < 29 → process_packet fwd data s last now = .ok ⟨s, false, false, last⟩) ∧
    (∀ sz, PACKET_SIZES (data.getD 6 0) = some sz → sz ≠ 0 → data.length ≠ sz →
      process_packet fwd data s last now = .ok ⟨s, false, false, last⟩) ∧
    (PACKET_SIZES (data.getD 6 0) = none → 29 ≤ data.length →
      forwardedOf (process_packet fwd data s last now) = fwd) := by
  refine ⟨fun h => ?_, fun sz hsz hnz hne => ?_, fun hnone hlen => ?_⟩
  · simp only [process_packet, PACKET_HEADER_SIZE]
    rw [if_pos h]
  · by_cases h29 : data.length < 29
    · simp only [process_packet, PACKET_HEADER_SIZE]
      rw [if_pos h29]
    · have hmis : sizeMismatch (data.getD 6 0) data.length = true := by
        unfold sizeMismatch
        rw [hsz]
        simp [hnz, hne]
      simp only [process_packet, PACKET_HEADER_SIZE]
      rw [if_neg h29, hmis]
      simp
  · have hmis : sizeMismatch (data.getD 6 0) data.length = false := by
      unfold sizeMismatch
      rw [hnone]
    simp only [process_packet, PACKET_HEADER_SIZE]
    rw [if_neg (by omega), hmis]
    simp only [Bool.false_eq_true, if_false]
    cases dispatchStep (data.drop 29) (data.getD 6 0) (data.getD 27 0) s with
    | error bad => rfl
    | ok s2 => exact notifyGate_forwarded (data.getD 6 0) s2 fwd last now

set_option maxRecDepth 10000 in
/-- Witness for C7: the empty datagram is dropped by the header check; a
100-byte datagram with packet id 0 (known size 1349) is dropped by the
size check; a 29-byte datagram with the unknown packet id 20 passes the
check and reaches the forwarder. -/
theorem drop_before_decoding_witness :
    process_packet true [] initialSnapshot 0 0 = .ok ⟨initialSnapshot, false, false, 0⟩ ∧
    process_packet true (List.replicate 100 0) initialSnapshot 0 0 =
      .ok ⟨initialSnapshot, false, false, 0⟩ ∧
    forwardedOf (process_packet true ((List.replicate 29 0).set 6 20) initialSnapshot 0 0) =
      true :=
  ⟨(drop_before_decoding true [] initialSnapshot 0 0).1 (by decide),
   (drop_before_decoding true (List.replicate 100 0) initialSnapshot 0 0).2.1 1349
     (by decide) (by decide) (by decide),
   (drop_before_decoding true ((List.replicate 29 0).set 6 20) initialSnapshot 0 0).2.2
     (by decide) (by decide)⟩

/-- Helper: for the throttled packet ids (LapData 2, Telemetry 6) the gate
notifies exactly when at least 1/10 second has passed since the stored
clock, and the clock advances to `now` exactly when it notifies. -/
theorem notifyGate_throttled (pid : Nat) (s2 : Snapshot) (fwd : Bool) (l n : Rat)
    (hid : pid = 2 ∨ pid = 6) :
    ((notifyGate pid s2 fwd l n).notified = true ↔ (1 : Rat) / 10 ≤ n - l) ∧
    (notifyGate pid s2 fwd l n).lastUpdate =
      (if (notifyGate pid s2 fwd l n).notified then n else l) := by
  have hrel : pid ∈ RELEVANT_PACKETS := by
    rcases hid with h | h <;> subst h <;> decide
  have hth : pid = 6 ∨ pid = 2 := by tauto
  unfold notifyGate
  rw [if_pos hrel, if_pos hth]
  by_cases hq : n - l < (1 : Rat) / 10
  · rw [if_pos hq]
    exact ⟨⟨fun hb => Bool.noConfusion hb, fun hge => absurd hq (not_lt.mpr hge)⟩, rfl⟩
  · rw [if_neg hq]
    exact ⟨⟨fun _ => not_lt.mp hq, fun _ => rfl⟩, rfl⟩

/-- Helper: every relevant non-throttled packet id notifies unconditionally
and leaves the throttle clock unchanged. -/
theorem notifyGate_immediate (pid : Nat) (s2 : Snapshot) (fwd : Bool) (l n : Rat)
    (hrel : pid ∈ RELEVANT_PACKETS) (hnt : ¬(pid = 6 ∨ pid = 2)) :
    (notifyGate pid s2 fwd l n).notified = true ∧ (notifyGate pid s2 fwd l n).lastUpdate = l := by
  unfold notifyGate
  rw [if_pos hrel, if_neg hnt]
  exact ⟨rfl, rfl⟩

/-- Helper: an irrelevant packet id never notifies and leaves the throttle
clock unchanged. -/
theorem notifyGate_irrelevant (pid : Nat) (s2 : Snapshot) (fwd : Bool) (l n : Rat)
    (hrel : pid ∉ RELEVANT_PACKETS) :
    (notifyGate pid s2 fwd l n).notified = false ∧ (notifyGate pid s2 fwd l n).lastUpdate = l := by
  unfold notifyGate
  rw [if_neg hrel]
  exact ⟨rfl, rfl⟩

/-- C3 amended: for an accepted datagram, a Telemetry or LapData packet
notifies if and only if at least 100 ms of monotonic time has elapsed
since the `_last_update` clock value, and that clock is advanced exactly
when such a notification fires; every other relevant packet type notifies
immediately and leaves the clock unchanged (so notifications of
non-throttled types do not reset the 100 ms window — the window is
measured since the previous notification of a throttled type, not of any
relevant type). -/
theorem notify_throttle (fwd : Bool) (data : List Nat) (s : Snapshot) (last now : Rat)
    (r : ProcResult) (h : process_packet fwd data s last now = .ok r)
    (hlen : 29 ≤ data.length)
    (hsize : sizeMismatch (data.getD 6 0) data.length = false) :
    ((data.getD 6 0 = 2 ∨ data.getD 6 0 = 6) →
      ((r.notified = true ↔ (1 : Rat) / 10 ≤ now - last) ∧
       r.lastUpdate = (if r.notified then now else last))) ∧
    ((data.getD 6 0 ∈ RELEVANT_PACKETS ∧ data.getD 6 0 ≠ 2 ∧ data.getD 6 0 ≠ 6) →
      r.notified = true ∧ r.lastUpdate = last) ∧
    (data.getD 6 0 ∉ RELEVANT_PACKETS → r.notified = false ∧ r.lastUpdate = last) := by
  simp only [process_packet, PACKET_HEADER_SIZE] at h
  rw [if_neg (by omega), hsize] at h
  simp only [Bool.false_eq_true, if_false] at h
  rcases hstep : dispatchStep (data.drop 29) (data.getD 6 0) (data.getD 27 0) s with bad | s2
  · rw [hstep] at h
    exact absurd h (by simp)
  · rw [hstep] at h
    injection h with h2
    refine ⟨fun hid => ?_, fun hoth => ?_, fun hirr => ?_⟩
    · rw [← h2]
      exact notifyGate_throttled (data.getD 6 0) s2 fwd last now hid
    · rw [← h2]
      exact notifyGate_immediate (data.getD 6 0) s2 fwd last now hoth.1 (by tauto)
    · rw [← h2]
      exact notifyGate_irrelevant (data.getD 6 0) s2 fwd last now hirr

set_option maxRecDepth 1000000 in
/-- C3 counterexample: from the initial state (throttle clock 0), a Session
datagram processed at time 1000 notifies, and a LapData datagram
processed from the resulting state only 1/20 second later notifies as
well, although less than 100 ms of monotonic time has elapsed since that
previous notification of a relevant type — the Session notification did
not reset the throttle clock, which still held its initial value 0. -/
theorem notify_throttle_counterexample :
    ∃ r1 r2 : ProcResult,
      process_packet false sessionDatagram initialSnapshot 0 1000 = .ok r1 ∧
      r1.notified = true ∧
      process_packet false lapDatagram r1.snap r1.lastUpdate (1000 + 1 / 20) = .ok r2 ∧
      r2.notified = true ∧
      (1000 + (1 : Rat) / 20) - 1000 < 1 / 10 := by
  refine ⟨⟨c3Snap1, true, false, 0⟩,
    notifyGate 2 c3Snap2 false 0 (1000 + 1 / 20), rfl, rfl, rfl, ?_, by norm_num⟩
  exact (notifyGate_throttled 2 c3Snap2 false 0 (1000 + 1 / 20) (Or.inl rfl)).1.mpr
    (by norm_num)

set_option maxRecDepth 1000000 in
/-- Witness for the C3 amended theorem: a LapData datagram processed with
throttle clock 0 at time 1000 notifies, since at least 1/10 second has
elapsed. -/
theorem notify_throttle_witness :
    (notifyGate 2 (parse_lap_data_packet (lapDatagram.drop 29) (lapDatagram.getD 27 0)
        initialSnapshot) false 0 1000).notified = true := by
  have h := notify_throttle false lapDatagram initialSnapshot 0 1000
    (notifyGate 2 (parse_lap_data_packet (lapDatagram.drop 29) (lapDatagram.getD 27 0)
      initialSnapshot) false 0 1000) rfl (by decide) (by decide)
  exact (h.1 (Or.inl (by decide))).1.mpr (by norm_num)

/-- Helper: the Session decoder cannot raise when the payload extends past
byte 124 — the only read the surrounding `try` does not protect. -/
theorem parse_session_packet_ok (payload : List Nat) (s : Snapshot) (h : 124 < payload.length) :
    ∃ t, parse_session_packet payload s = .ok t := by
  unfold parse_session_packet
  rw [if_neg (by omega), if_pos h]
  exact ⟨_, rfl⟩

set_option maxHeartbeats 2000000 in
/-- Helper: the Event decoder cannot raise when the payload has at least six
bytes, covering its two unguarded reads at offsets 4 and 5. -/
theorem parse_event_packet_ok (payload : List Nat) (s : Snapshot) (h : 5 < payload.length) :
    ∃ t, parse_event_packet payload s = .ok t := by
  have h4 : pyGet payload 4 ≠ none := by
    unfold pyGet
    rw [ne_eq, List.get?_eq_none]
    omega
  obtain ⟨v4, hv4⟩ := Option.ne_none_iff_exists'.mp h4
  have h5 : pyGet payload 5 ≠ none := by
    unfold pyGet
    rw [ne_eq, List.get?_eq_none]
    omega
  obtain ⟨v5, hv5⟩ := Option.ne_none_iff_exists'.mp h5
  unfold parse_event_packet
  simp only [hv4, hv5]
  split_ifs <;> exact ⟨_, rfl⟩

/-- Helper: the Participants decoder cannot raise on a nonempty payload
(its only unguarded read is the count byte). -/
theorem parse_participants_packet_ok (payload : List Nat) (s : Snapshot)
    (h : 0 < payload.length) :
    ∃ t, parse_participants_packet payload s = .ok t := by
  have h0 : pyGet payload 0 ≠ none := by
    unfold pyGet
    rw [ne_eq, List.get?_eq_none]
    omega
  obtain ⟨v0, hv0⟩ := Option.ne_none_iff_exists'.mp h0
  unfold parse_participants_packet
  rw [hv0]
  exact ⟨_, rfl⟩

/-- Helper: dispatch cannot raise provided each decoder with an unguarded
read gets a payload long enough for it. -/
theorem dispatchStep_ok (payload : List Nat) (pid pci : Nat) (s : Snapshot)
    (hses : pid = 1 → 124 < payload.length)
    (hev : pid = 3 → 5 < payload.length)
    (hpar : pid = 4 → 0 < payload.length) :
    ∃ t, dispatchStep payload pid pci s = .ok t := by
  unfold dispatchStep
  split_ifs with h1 h2 h6 h7 h10 h4 h3
  · exact parse_session_packet_ok payload s (hses h1)
  · exact ⟨_, rfl⟩
  · exact ⟨_, rfl⟩
  · exact ⟨_, rfl⟩
  · exact ⟨_, rfl⟩
  · exact parse_participants_packet_ok payload s (hpar h4)
  · exact parse_event_packet_ok payload s (hev h3)
  · exact ⟨_, rfl⟩

/-- Helper: `process_packet` returns normally on every input: the size
sanity check pins the Session, Event and Participants payloads to 724, 16
and 1255 bytes, beyond each decoder's unguarded reads. -/
theorem process_packet_ok (fwd : Bool) (data : List Nat) (s : Snapshot) (last now : Rat) :
    ∃ r, process_packet fwd data s last now = .ok r := by
  by_cases h29 : data.length < 29
  · refine ⟨⟨s, false, false, last⟩, ?_⟩
    simp only [process_packet, PACKET_HEADER_SIZE]
    rw [if_pos h29]
  · by_cases hmis : sizeMismatch (data.getD 6 0) data.length = true
    · refine ⟨⟨s, false, false, last⟩, ?_⟩
      simp only [process_packet, PACKET_HEADER_SIZE]
      rw [if_neg h29, if_pos hmis]
    · have hsize : ∀ sz, PACKET_SIZES (data.getD 6 0) = some sz → sz ≠ 0 →
          data.length = sz := by
        intro sz hsz hnz
        by_contra hne
        apply hmis
        unfold sizeMismatch
        rw [hsz]
        simp [hnz, hne]
      have hses : data.getD 6 0 = 1 → 124 < (data.drop 29).length := by
        intro h1
        have hl : data.length = 753 := by
          apply hsize 753 _ (by norm_num)
          rw [h1]
          rfl
        rw [List.length_drop, hl]
        norm_num
      have hev : data.getD 6 0 = 3 → 5 < (data.drop 29).length := by
        intro h1
        have hl : data.length = 45 := by
          apply hsize 45 _ (by norm_num)
          rw [h1]
          rfl
        rw [List.length_drop, hl]
        norm_num
      have hpar : data.getD 6 0 = 4 → 0 < (data.drop 29).length := by
        intro h1
        have hl : data.length = 1284 := by
          apply hsize 1284 _ (by norm_num)
          rw [h1]
          rfl
        rw [List.length_drop, hl]
        norm_num
      obtain ⟨t, ht⟩ := dispatchStep_ok (data.drop 29) (data.getD 6 0) (data.getD 27 0) s
        hses hev hpar
      refine ⟨notifyGate (data.getD 6 0) t fwd last now, ?_⟩
      simp only [process_packet, PACKET_HEADER_SIZE]
      rw [if_neg h29, if_neg hmis, ht]

/-- C4: processing any input datagram — any byte list, any length, any
packet-type id — returns normally: no exception escapes the dispatcher.
In particular the Session decoder's unguarded read of payload byte 124
cannot raise whenever the payload extends past byte 124, which the size
sanity check guarantees by pinning Session payloads to 753 - 29 = 724
bytes. -/
theorem process_packet_no_uncaught_exception :
    (∀ (fwd : Bool) (data : List Nat) (s : Snapshot) (last now : Rat),
      ∃ r, process_packet fwd data s last now = .ok r) ∧
    (∀ (payload : List Nat) (s : Snapshot), payload.length = 724 →
      ∃ t, parse_session_packet payload s = .ok t) :=
  ⟨process_packet_ok, fun payload s h => parse_session_packet_ok payload s (by omega)⟩

/-- Witness for C4: the all-zero Session datagram is processed without an
exception, and a 724-byte payload makes the Session decoder's unguarded
byte-124 read safe. -/
theorem process_packet_no_uncaught_exception_witness :
    (∃ r, process_packet false sessionDatagram initialSnapshot 0 0 = .ok r) ∧
    (∃ t, parse_session_packet (List.replicate 724 0) initialSnapshot = .ok t) :=
  ⟨process_packet_no_uncaught_exception.1 false sessionDatagram initialSnapshot 0 0,
   process_packet_no_uncaught_exception.2 (List.replicate 724 0) initialSnapshot
     (by rw [List.length_replicate])⟩

end F125
